import Mathlib

/-!
Verification development for the Blaster repository ("A Pier to the Past"),
a pygame tile-exploration game.  The state machine, map loader, tile-event
scanner, transition evaluator and funding gate of `main.py` are embedded as
pure functions over an explicit `GameState`; the dialogue and cutscene models
of `dialogue.py` are embedded directly.  External collaborators (pygame
rendering, the pytmx map files, the audio mixer, the keyboard) appear as
parameters of the step functions: each frame's player movement comes in as an
integer delta pair and the tile-property lookup result as a `TileProps`
value, exactly the data the Python code extracts from those collaborators.
File-system success paths are assumed (assets present), as the spec's error
taxonomy treats their absence as logged fallbacks.
-/

/-- Game modes, the string values of `Game.game_state` in `main.py`:
'intro', 'playing', 'dialogue', 'cutscene', 'ending', 'confirm_quit'. -/
inductive Mode where
  | intro
  | playing
  | dialogue
  | cutscene
  | confirm_quit
  | ending
  deriving DecidableEq, Repr

/-- A pygame `Rect`: integer top-left corner plus width and height. -/
structure Rect where
  x : Int
  y : Int
  w : Int
  h : Int
  deriving DecidableEq, Repr

def Rect.left (r : Rect) : Int := r.x

def Rect.right (r : Rect) : Int := r.x + r.w

def Rect.top (r : Rect) : Int := r.y

def Rect.bottom (r : Rect) : Int := r.y + r.h

/-- pygame computes a rect's center with truncating integer halving of the
(nonnegative) width and height. -/
def Rect.center (r : Rect) : Int × Int := (r.x + r.w / 2, r.y + r.h / 2)

def Rect.topleft (r : Rect) : Int × Int := (r.x, r.y)

def Rect.setLeft (r : Rect) (v : Int) : Rect := { r with x := v }

def Rect.setRight (r : Rect) (v : Int) : Rect := { r with x := v - r.w }

def Rect.setTop (r : Rect) (v : Int) : Rect := { r with y := v }

def Rect.setBottom (r : Rect) (v : Int) : Rect := { r with y := v - r.h }

/-- Assigning `rect.center = c` in pygame: the top-left moves so that the
center lands on `c` (up to the same truncating halving). -/
def Rect.setCenter (r : Rect) (c : Int × Int) : Rect :=
  { r with x := c.1 - r.w / 2, y := c.2 - r.h / 2 }

def Rect.setTopleft (r : Rect) (c : Int × Int) : Rect :=
  { r with x := c.1, y := c.2 }

/-- pygame `Rect.move_ip`. -/
def Rect.moveIp (r : Rect) (dx dy : Int) : Rect :=
  { r with x := r.x + dx, y := r.y + dy }

/-- The player of `sprites.py`: a visual rect, a hitbox inset from it
(`rect.inflate(-8, -8)`), and a speed.  Only position state is embedded; the
sprite image is rendering data. -/
structure Player where
  rect : Rect
  hitbox : Rect
  speed : Int
  deriving DecidableEq, Repr

/-- The movement core of `Player.update` in `sprites.py`: the rect moves by
the frame's integer deltas (computed there from the pressed keys, speed and
the rounded diagonal factor — keyboard input is external, so the deltas are
parameters), then the hitbox is re-centered on the rect. -/
def Player.moveBy (p : Player) (mx my : Int) : Player :=
  { p with rect := p.rect.moveIp mx my,
           hitbox := p.hitbox.setCenter (p.rect.moveIp mx my).center }

/-- The property dict of one tile on the `EventsMap` layer, as consumed by
`Game.check_tile_events`: the `Door` and `CutsceneTrigger` keys it reads,
plus any remaining key/value pairs (kept so that dict equality — the
edge-trigger gate — is faithful).  An empty tile / out-of-bounds lookup is
the all-empty value. -/
structure TileProps where
  door : Option String
  cutsceneTrigger : Option String
  other : List (String × String)
  deriving DecidableEq, Repr

def TileProps.empty : TileProps := { door := none, cutsceneTrigger := none, other := [] }

/-- The `Dialogue` class of `dialogue.py`: speaker name, lines, and the
mutable cursor `current_line`. -/
structure Dialogue where
  name : String
  lines : List String
  current_line : Nat
  deriving DecidableEq, Repr

/-- `Dialogue.get_current_line`: the line at the cursor, or `None` when the
cursor is out of range. -/
def Dialogue.get_current_line (d : Dialogue) : Option String :=
  if d.current_line < d.lines.length then d.lines.get? d.current_line else none

/-- `Dialogue.next_line`: unconditionally increments the cursor, then returns
the new line, or `None` once the cursor has reached the line count.  (The
Python code does not clamp the cursor at the end.) -/
def Dialogue.next_line (d : Dialogue) : Dialogue × Option String :=
  if d.current_line + 1 < d.lines.length then
    ({ d with current_line := d.current_line + 1 }, d.lines.get? (d.current_line + 1))
  else ({ d with current_line := d.current_line + 1 }, none)

/-- `Dialogue.is_finished`. -/
def Dialogue.is_finished (d : Dialogue) : Bool := d.lines.length ≤ d.current_line

/-- `Dialogue.reset`. -/
def Dialogue.reset (d : Dialogue) : Dialogue := { d with current_line := 0 }

/-- Iterated `next_line` (state component), for reasoning about repeated
advance calls. -/
def Dialogue.advanceN (d : Dialogue) : Nat → Dialogue
  | 0 => d
  | n + 1 => (Dialogue.advanceN d n).next_line.1

/-- The `Cutscene` class of `dialogue.py`: per-slide image references
(`None` for a black slide), per-slide sentences, optional music reference,
and the stored `num_slides`.  The class exposes no mutating method, so a
constructed value is immutable. -/
structure Cutscene where
  music_path : Option String
  image_paths : List (Option String)
  sentences : List String
  num_slides : Nat
  deriving DecidableEq, Repr

/-- `Cutscene.__init__`: raises `ValueError` when the two lists differ in
length (modelled as `none`), otherwise stores both lists, the music
reference and `num_slides = len(sentences)`. -/
def Cutscene.make (image_paths : List (Option String)) (sentences : List String)
    (music_path : Option String) : Option Cutscene :=
  if image_paths.length ≠ sentences.length then none
  else some { music_path := music_path, image_paths := image_paths,
              sentences := sentences, num_slides := sentences.length }

/-- The static `dialogues` table of `dialogue.py`: key, speaker name and
lines, each with a fresh cursor at 0.  (The cursor of the active dialogue is
tracked in `GameState`; `start_dialogue` always resets it before use.) -/
def dialogues : List (String × Dialogue) :=
  [ ("door_1_npc",
     { name := "Door1NPC", lines := ["Hello! I live here."], current_line := 0 }),
    ("rude_npc",
     { name := "RudeNPC",
       lines := ["Go away! I don't have time for you.", "Leave me alone!"],
       current_line := 0 }),
    ("pierkeeper_generic",
     { name := "Pierkeeper",
       lines := ["It's a terrible wreck... The pier is totally gone\n\n....what's that? You say you wish to help?",
                 "Go talk to the mayor, perhaps he can fund the repairs!\n\nHis house is to the left."],
       current_line := 0 }),
    ("mayor_greeting",
     { name := "Mayor",
       lines := ["Ah, hello there!",
                 "Fine gentleman, you wish to help with the restoration of the pier?",
                 "I see! if you can collect donations from the townsfolk I will help. If you can raise £300, we can provide the rest.",
                 "Hurry!"],
       current_line := 0 }),
    ("houseowner0_generic",
     { name := "Resident",
       lines := ["What's that? You're collecting subscriptions for the pier repairs?\n\nI can gladly offer some money.",
                 "Step into my house and I'll tell you a story about the great Birthday Storm of 1824."],
       current_line := 0 }),
    ("houseowner1_dialogue",
     { name := "Resident",
       lines := ["What's that? You're collecting subscriptions for the pier repairs?\n\nI can gladly offer some money.",
                 "Step into my house and I'll tell you about the time Turner came to visit."],
       current_line := 0 }),
    ("houseowner2_dialogue",
     { name := "Resident",
       lines := ["What's that? You're collecting subscriptions for the pier repairs?\n\nI can gladly offer some money.",
                 "Step into my house and I'll tell you a story of what life was like before that wonderful pier."],
       current_line := 0 }),
    ("houseowner3_dialogue",
     { name := "Resident", lines := ["Go away!"], current_line := 0 }),
    ("houseowner4_dialogue",
     { name := "Rude Resident", lines := ["Go away!"], current_line := 0 }),
    ("houseowner1_generic",
     { name := "Resident", lines := ["It was such a lovely pier before the storm."],
       current_line := 0 }),
    ("houseowner2_generic",
     { name := "Resident", lines := ["I hope they can repair it soon."], current_line := 0 }),
    ("houseowner3_generic",
     { name := "Resident", lines := ["I have nothing to say."], current_line := 0 }),
    ("new_story_npc_1",
     { name := "Mysterious Figure",
       lines := ["Have you seen the state of the pier?",
                 "Something doesn't feel right about that storm..."],
       current_line := 0 }),
    ("shopkeeper_intro",
     { name := "Shopkeeper",
       lines := ["Welcome!", "Looking for supplies?",
                 "Can't offer much with the pier out of commission."],
       current_line := 0 }),
    ("piermaster_ending",
     { name := "Piermaster",
       lines := ["You... you actually did it!\n\nWith these funds, we can fully restore the pier to its former glory, maybe even better!",
                 "The town owes you a great debt. Thank you, truly.",
                 "Brighton's connection to the sea, its very heart, is saved thanks to you."],
       current_line := 0 }) ]

/-- Lookup in the `dialogues` dict. -/
def dialoguesGet (k : String) : Option Dialogue :=
  (dialogues.find? (fun e => e.1 == k)).map (fun e => e.2)

/-- The `collision_cutscenes` dict of `dialogue.py`, projected to its key set
and per-cutscene slide counts: the game's control logic consumes only
membership of a trigger key and `num_slides`; the slide image paths,
sentences and music references feed only the renderer and the mixer
(external collaborators). -/
def collision_cutscene_slides : List (String × Nat) :=
  [ ("intro_story", 4), ("another_story", 2), ("houseowner1_cutscene", 7),
    ("houseowner2_cutscene", 8), ("houseowner3_cutscene", 4),
    ("houseowner4_cutscene", 1) ]

def collision_cutscene_keys : List String := collision_cutscene_slides.map Prod.fst

def cutsceneSlides (k : String) : Option Nat :=
  (collision_cutscene_slides.find? (fun e => e.1 == k)).map (fun e => e.2)

/-- `config.SCREEN_WIDTH`. -/
def SCREEN_WIDTH : Int := 1280

/-- `config.SCREEN_HEIGHT`. -/
def SCREEN_HEIGHT : Int := 800

/-- `config.MAP_TRANSITION_BUFFER`. -/
def MAP_TRANSITION_BUFFER : Int := 30

/-- The key set of `config.MAP_PATHS` (the values are `.tmx` file paths,
external resources). -/
def MAP_KEYS : List String := ["pier", "palace", "streets", "pier_repaired"]

/-- `config.NPC_POSITIONS`: per map, NPC role name to center coordinate. -/
def NPC_POSITIONS : List (String × List (String × (Int × Int))) :=
  [ ("pier", [("piermaster", (500, 400))]),
    ("palace", [("mayor", (650, 450))]),
    ("streets",
      [("houseowner_0", (100, 105)), ("houseowner_1", (350, 105)),
       ("houseowner_2", (650, 105)), ("houseowner_3", (920, 105))]),
    ("pier_repaired",
      [("piermaster", (350, 600)), ("mayor", (450, 600)),
       ("houseowner_0", (650, 600)), ("houseowner_1", (750, 600)),
       ("houseowner_2", (850, 600)), ("houseowner_3", (950, 600))]) ]

def npcPositionsFor (k : String) : List (String × (Int × Int)) :=
  ((NPC_POSITIONS.find? (fun e => e.1 == k)).map (fun e => e.2)).getD []

/-- `config.MAP_MUSIC_PATHS`, with each path abbreviated to its file name
(the directory prefix is computed at runtime from the install location). -/
def MAP_MUSIC_PATHS (k : String) : Option String :=
  if k = "pier" then some "ReachingOut.mp3"
  else if k = "palace" then some "Autumn Day.mp3"
  else if k = "streets" then some "When The Wind Blows.mp3"
  else if k = "pier_repaired" then some "Bright Wish.mp3"
  else none

/-- The NPC roster of `main.py` (`Game.__init__`): the piermaster, the mayor
and five houseowners.  Their sprite images and rect data are rendering
state; the control logic consumes only their dialogue keys, of which only
the piermaster's is ever reassigned (in `load_map`). -/
inductive NPCRole where
  | piermaster
  | mayor
  | houseowner (i : Nat)
  deriving DecidableEq, Repr

/-- The keyboard keys `Game.handle_events` distinguishes. -/
inductive GKey where
  | escape
  | e
  | q
  | c
  | ret
  | y
  | n
  | other
  deriving DecidableEq, Repr

/-- One pygame event as `Game.handle_events` dispatches it.  `clickPlay`,
`clickYes` and `clickNo` abstract the mouse hit-tests on the intro's Play
button and the quit dialog's buttons (the screen-space geometry is external
plumbing). -/
inductive GEvent where
  | quit
  | keydown (k : GKey)
  | clickPlay
  | clickYes
  | clickNo
  deriving DecidableEq, Repr

/-- The arrival sides of `handle_map_transitions`. -/
inductive Side where
  | left
  | right
  | top
  | bottom
  deriving DecidableEq, Repr

/-- Repositioning the player after a map transition: the named rect edge is
set to the arrival coordinate, then the hitbox is re-centered on the rect. -/
def Rect.setSide (r : Rect) (side : Side) (c : Int) : Rect :=
  match side with
  | Side.left => r.setLeft c
  | Side.right => r.setRight c
  | Side.top => r.setTop c
  | Side.bottom => r.setBottom c

def Player.reposition (p : Player) (side : Side) (c : Int) : Player :=
  { p with rect := p.rect.setSide side c,
           hitbox := p.hitbox.setCenter (p.rect.setSide side c).center }

/-- The mutable state of `main.py`'s `Game` object (plus the module-global
`accumulator`) that the state machine reads or writes.  Pure rendering
fields (surfaces, fonts, camera, buttons) are omitted.  `active_cutscene`
and `active_dialogue` hold the table key of the stored object (the tables
map distinct keys to distinct objects, so Python's identity tests coincide
with key equality); `active_dialogue_cursor` is the cursor of the active
dialogue's table object.  `load_log` and `trigger_log` are ghost
instrumentation recording, in order, the `load_map` calls performed and the
`CutsceneTrigger` tile-entry events fired — they let theorems count those
occurrences and are written by no other code path. -/
structure GameState where
  game_state : Mode
  running : Bool
  current_map_key : Option String
  accumulator : Nat
  triggered_cutscenes : List String
  last_event_tile_properties : Option TileProps
  active_cutscene : Option String
  current_cutscene_slide : Nat
  active_dialogue : Option String
  active_dialogue_cursor : Nat
  dialogue_box_text : String
  dialogue_box_visible : Bool
  piermaster_dialogue_key : String
  player : Player
  show_player_coords : Bool
  current_background_music_path : Option String
  load_log : List String
  trigger_log : List String
  deriving DecidableEq, Repr

/-- `Game.load_map` (success path; a `.tmx` read failure would additionally
stop the run loop, like the unknown-key branch).  Rebuilds the renderer and
group (rendering), clears the triggered-cutscene set and the tile snapshot,
re-adds the player (position untouched), places the per-map NPCs, overwrites
the piermaster's dialogue key with the ending key when the repaired pier is
loaded with the piermaster present, records the map as current and switches
to the map's configured background track (so the tracker ends at that map's
entry of `MAP_MUSIC_PATHS` whether or not it was already playing).  An
unknown key raises `ValueError` before any mutation; the handler then stops
the run loop. -/
def GameState.load_map (s : GameState) (map_key : String) : GameState :=
  if map_key ∈ MAP_KEYS then
    { s with
      triggered_cutscenes := [],
      last_event_tile_properties := none,
      piermaster_dialogue_key :=
        if ((npcPositionsFor map_key).any (fun e => e.1 == "piermaster")) &&
            (map_key == "pier_repaired")
        then "piermaster_ending" else s.piermaster_dialogue_key,
      current_map_key := some map_key,
      current_background_music_path := MAP_MUSIC_PATHS map_key,
      load_log := s.load_log ++ [map_key] }
  else { s with running := false }

/-- `Game.start_cutscene`: a no-op (warning only) while already in cutscene
mode; otherwise, for a known key, activates the cutscene at slide 0, enters
cutscene mode, marks the key as triggered for this map load, and fades out
the map music (the tracker is cleared; the cutscene's own track is fed to
the mixer only).  An unknown key is logged and ignored. -/
def GameState.start_cutscene (s : GameState) (k : String) : GameState :=
  if s.game_state = Mode.cutscene then s
  else if k ∈ collision_cutscene_keys then
    { s with
      active_cutscene := some k,
      current_cutscene_slide := 0,
      game_state := Mode.cutscene,
      triggered_cutscenes := k :: s.triggered_cutscenes,
      current_background_music_path := none }
  else s

/-- The `CutsceneTrigger` value of the previous frame's tile snapshot
(`last_trigger_key` in `check_tile_events`): `None` when there is no
snapshot yet. -/
def GameState.lastTrigger (s : GameState) : Option String :=
  match s.last_event_tile_properties with
  | some p => p.cutsceneTrigger
  | none => none

/-- The body of `check_tile_events` run when the player stands on a tile
whose `CutsceneTrigger` value differs from last frame's: the global
accumulator grows by 100 (the ghost `trigger_log` records the firing), and
the cutscene starts when its key is known and not yet triggered on this map
load. -/
def GameState.fireTrigger (s : GameState) (k : String) : GameState :=
  if k ∈ collision_cutscene_keys ∧ k ∉ s.triggered_cutscenes then
    ({ s with accumulator := s.accumulator + 100,
              trigger_log := s.trigger_log ++ [k] }).start_cutscene k
  else
    { s with accumulator := s.accumulator + 100,
             trigger_log := s.trigger_log ++ [k] }

/-- `Game.check_tile_events`.  Runs only with a map loaded and in playing
mode.  `cur` is the property dict of the tile under the player's hitbox
center on the `EventsMap` layer, as the Python code computes it from the
pytmx data (empty on an empty tile, out-of-bounds position or lookup
failure) — that lookup reads external map files, so its result is the
parameter.  When the dict equals last frame's snapshot nothing happens;
otherwise the `Door` value is only printed, a changed `CutsceneTrigger`
value fires `fireTrigger`, and the snapshot is updated. -/
def GameState.check_tile_events (s : GameState) (cur : TileProps) : GameState :=
  if s.current_map_key.isNone ∨ s.game_state ≠ Mode.playing then s
  else if some cur = s.last_event_tile_properties then s
  else
    match cur.cutsceneTrigger with
    | some k =>
      if some k ≠ s.lastTrigger then
        { s.fireTrigger k with last_event_tile_properties := some cur }
      else { s with last_event_tile_properties := some cur }
    | none => { s with last_event_tile_properties := some cur }

/-- Folding the tile-event scanner over a sequence of frames' tile lookups
(the per-frame scans of consecutive `Game.update` calls, with the player
standing on the listed tiles). -/
def scanFrames (s : GameState) (frames : List TileProps) : GameState :=
  frames.foldl GameState.check_tile_events s

/-- The static transition table of `Game.handle_map_transitions`: for the
current map and player rect, the destination map, arrival side and arrival
coordinate of the first matching edge condition, if any. -/
def transitionFor (m : String) (r : Rect) : Option (String × Side × Int) :=
  if m = "pier" ∧ r.left ≤ 0 + MAP_TRANSITION_BUFFER then
    some ("palace", Side.right, SCREEN_WIDTH - MAP_TRANSITION_BUFFER)
  else if m = "palace" ∧ SCREEN_WIDTH - MAP_TRANSITION_BUFFER ≤ r.right then
    some ("pier", Side.left, MAP_TRANSITION_BUFFER)
  else if m = "palace" ∧ r.left ≤ 0 + MAP_TRANSITION_BUFFER then
    some ("streets", Side.right, SCREEN_WIDTH - MAP_TRANSITION_BUFFER)
  else if m = "streets" ∧ SCREEN_WIDTH - MAP_TRANSITION_BUFFER ≤ r.right then
    some ("palace", Side.left, MAP_TRANSITION_BUFFER)
  else if m = "pier_repaired" ∧ r.left ≤ 0 + MAP_TRANSITION_BUFFER then
    some ("palace", Side.right, SCREEN_WIDTH - MAP_TRANSITION_BUFFER)
  else none

/-- `Game.handle_map_transitions`: with a map loaded, the first matching
edge condition (at most one per call) loads the destination map and
repositions the player on the arrival side. -/
def GameState.handle_map_transitions (s : GameState) : GameState :=
  match s.current_map_key with
  | none => s
  | some m =>
    match transitionFor m s.player.rect with
    | none => s
    | some (dest, side, c) =>
      { s.load_map dest with player := (s.load_map dest).player.reposition side c }

/-- The pier-repair block at the end of `Game.update`'s playing branch:
when the current map is the damaged pier and the global accumulator has
reached 300, the player's top-left is captured, the repaired pier is loaded,
the top-left is restored and the hitbox re-centered (the camera re-center is
rendering). -/
def GameState.place_player_topleft (s : GameState) (pos : Int × Int) : GameState :=
  { s with player :=
      { s.player with
        rect := s.player.rect.setTopleft pos,
        hitbox := s.player.hitbox.setCenter (s.player.rect.setTopleft pos).center } }

def GameState.funding_gate (s : GameState) : GameState :=
  if s.current_map_key = some "pier" ∧ 300 ≤ s.accumulator then
    (s.load_map "pier_repaired").place_player_topleft s.player.rect.topleft
  else s

/-- `Game.update` for one frame.  Outside playing mode (or with no map
loaded) nothing is updated.  In playing mode: the sprites update (the player
moves by this frame's deltas), the camera recenters (rendering), the tile
events are checked against `cur`, the map transitions are checked, and the
funding gate runs — the playing check happens once on entry, so the later
steps run even when a tile event has just switched the mode to cutscene. -/
def GameState.update (s : GameState) (mx my : Int) (cur : TileProps) : GameState :=
  if s.game_state = Mode.playing ∧ s.current_map_key.isSome then
    ((({ s with player := s.player.moveBy mx my }).check_tile_events
        cur).handle_map_transitions).funding_gate
  else s

/-- The dialogue key of an NPC role, as stored on the sprite objects: fixed
at construction for all roles except the piermaster, whose key lives in the
state (see `load_map`). -/
def GameState.npcDialogueKey (s : GameState) : NPCRole → String
  | NPCRole.piermaster => s.piermaster_dialogue_key
  | NPCRole.mayor => "mayor_greeting"
  | NPCRole.houseowner 0 => "houseowner0_generic"
  | NPCRole.houseowner 1 => "houseowner1_dialogue"
  | NPCRole.houseowner 2 => "houseowner2_dialogue"
  | NPCRole.houseowner 3 => "houseowner3_dialogue"
  | NPCRole.houseowner _ => "houseowner4_dialogue"

/-- `Game.start_dialogue`: only from playing mode; the NPC's dialogue is
looked up, reset to its first line, and when that line is non-empty (Python
truthiness) the dialogue box is filled and shown and the mode becomes
dialogue; an empty or missing dialogue leaves playing mode unchanged (with
no active dialogue). -/
def GameState.start_dialogue (s : GameState) (role : NPCRole) : GameState :=
  if s.game_state ≠ Mode.playing then s
  else
    match dialoguesGet (s.npcDialogueKey role) with
    | none => s
    | some d0 =>
      match d0.reset.get_current_line with
      | some line =>
        if line ≠ "" then
          { s with
            active_dialogue := some (s.npcDialogueKey role),
            active_dialogue_cursor := 0,
            dialogue_box_text := d0.reset.name ++ ": " ++ line,
            dialogue_box_visible := true,
            game_state := Mode.dialogue }
        else { s with active_dialogue := none, active_dialogue_cursor := 0 }
      | none => { s with active_dialogue := none, active_dialogue_cursor := 0 }

/-- The advance branch of `Game.handle_events`'s dialogue state: `next_line`
on the active dialogue; a returned line refreshes the box, `None` hides the
box, returns to playing — or enters ending mode when the finished dialogue
is the piermaster's ending dialogue (Python compares object identity with
the table's entry, which coincides with key equality) — and clears the
active dialogue. -/
def GameState.dialogue_advance (s : GameState) : GameState :=
  match s.active_dialogue with
  | none => s
  | some key =>
    match dialoguesGet key with
    | none => s
    | some d0 =>
      match ({ d0 with current_line := s.active_dialogue_cursor } : Dialogue).next_line with
      | (d2, some line) =>
        { s with
          active_dialogue_cursor := d2.current_line,
          dialogue_box_text := d2.name ++ ": " ++ line }
      | (d2, none) =>
        { s with
          dialogue_box_visible := false,
          active_dialogue_cursor := d2.current_line,
          game_state := if key = "piermaster_ending" then Mode.ending else Mode.playing,
          active_dialogue := none }

/-- `Game._end_cutscene` (the rendering surfaces it clears are omitted):
fades the cutscene music out, resumes the current map's configured track if
any, returns to playing mode and clears the active cutscene and slide. -/
def GameState.end_cutscene (s : GameState) : GameState :=
  { s with
    game_state := Mode.playing,
    active_cutscene := none,
    current_cutscene_slide := 0,
    current_background_music_path :=
      match s.current_map_key with
      | some m => MAP_MUSIC_PATHS m
      | none => none }

/-- `Game._advance_cutscene_slide`: increments the slide index and ends the
cutscene once it reaches the slide count (slide asset loading is
rendering). -/
def GameState.advance_cutscene_slide (s : GameState) : GameState :=
  match s.active_cutscene with
  | none => s
  | some k =>
    if (cutsceneSlides k).getD 0 ≤ s.current_cutscene_slide + 1 then
      ({ s with current_cutscene_slide := s.current_cutscene_slide + 1 }).end_cutscene
    else { s with current_cutscene_slide := s.current_cutscene_slide + 1 }

/-- The mode dispatch (`if`/`elif` chain on `game_state`) of
`Game.handle_events` for one queued event.  `nearby` is the result of
`find_nearby_interactable_npc` (a geometric query over sprite positions,
consumed only by the interaction key). -/
def GameState.dispatch_event (s : GameState) (ev : GEvent) (nearby : Option NPCRole) :
    GameState :=
  match s.game_state with
  | Mode.playing =>
    match ev with
    | GEvent.keydown GKey.escape => { s with game_state := Mode.confirm_quit }
    | GEvent.keydown GKey.e =>
      match nearby with
      | some r => s.start_dialogue r
      | none => s
    | GEvent.keydown GKey.q => { s with accumulator := 300 }
    | GEvent.keydown GKey.c => { s with show_player_coords := !s.show_player_coords }
    | _ => s
  | Mode.dialogue =>
    match ev with
    | GEvent.keydown GKey.ret => s.dialogue_advance
    | GEvent.keydown GKey.e => s.dialogue_advance
    | _ => s
  | Mode.cutscene =>
    match ev with
    | GEvent.keydown GKey.ret => s.advance_cutscene_slide
    | GEvent.keydown GKey.escape => s.end_cutscene
    | _ => s
  | Mode.intro =>
    match ev with
    | GEvent.keydown GKey.escape => { s with running := false }
    | GEvent.clickPlay => ({ s with game_state := Mode.playing }).load_map "pier"
    | _ => s
  | Mode.confirm_quit =>
    match ev with
    | GEvent.keydown GKey.escape => { s with game_state := Mode.playing }
    | GEvent.keydown GKey.n => { s with game_state := Mode.playing }
    | GEvent.keydown GKey.y => { s with running := false }
    | GEvent.clickYes => { s with running := false }
    | GEvent.clickNo => { s with game_state := Mode.playing }
    | _ => s
  | Mode.ending =>
    match ev with
    | GEvent.keydown GKey.escape => { s with running := false }
    | _ => s

/-- One iteration of `Game.handle_events`'s event loop: a `QUIT` event first
stops the run loop (and matches none of the mode branches' keydown/mouse
patterns), every event then goes through the mode dispatch above. -/
def GameState.handle_event (s : GameState) (ev : GEvent) (nearby : Option NPCRole) :
    GameState :=
  if ev = GEvent.quit then ({ s with running := false }).dispatch_event ev nearby
  else s.dispatch_event ev nearby

/-- Concrete player fixture for witnesses: the rect at the start position of
`Game.__init__` with a nominal 32×32 sprite size (the image dimensions are
asset data) and the hitbox inset by `rect.inflate(-8, -8)`. -/
def basePlayer : Player :=
  { rect := { x := 700, y := 200, w := 32, h := 32 },
    hitbox := { x := 704, y := 204, w := 24, h := 24 }, speed := 5 }

/-- Concrete state fixture for witnesses: playing on the freshly loaded
pier map. -/
def baseState : GameState :=
  { game_state := Mode.playing, running := true, current_map_key := some "pier",
    accumulator := 0, triggered_cutscenes := [], last_event_tile_properties := none,
    active_cutscene := none, current_cutscene_slide := 0,
    active_dialogue := none, active_dialogue_cursor := 0,
    dialogue_box_text := "", dialogue_box_visible := false,
    piermaster_dialogue_key := "pierkeeper_generic",
    player := basePlayer, show_player_coords := false,
    current_background_music_path := some "ReachingOut.mp3",
    load_log := [], trigger_log := [] }

/-- Concrete state fixture: mid-cutscene. -/
def cutsceneFix : GameState :=
  { baseState with
    game_state := Mode.cutscene,
    active_cutscene := some "another_story",
    current_cutscene_slide := 1,
    triggered_cutscenes := ["another_story"] }

/-- Two-line dialogue fixture for the C1 witness. -/
def witD : Dialogue := { name := "R", lines := ["a", "b"], current_line := 0 }

/-- The state change of one fired `CutsceneTrigger` tile entry that does not
start a cutscene, as an explicit record (proof bookkeeping). -/
def fireUpd (t : GameState) (k : String) (P : TileProps) : GameState :=
  { t with accumulator := t.accumulator + 100,
           trigger_log := t.trigger_log ++ [k],
           last_event_tile_properties := some P }

/-- The state change of a tile entry that fires no trigger: only the
snapshot moves (proof bookkeeping). -/
def snapUpd (t : GameState) (Q : TileProps) : GameState :=
  { t with last_event_tile_properties := some Q }

/-- Tile fixture: a tile carrying `CutsceneTrigger: intro_story`. -/
def propsP : TileProps := { door := none, cutsceneTrigger := some "intro_story", other := [] }

/-- Tile fixture: a different property set (a `Door` key added) carrying the
same `CutsceneTrigger` value as `propsP`. -/
def propsQsame : TileProps :=
  { door := some "1", cutsceneTrigger := some "intro_story", other := [] }

/-- Tile fixture: a tile whose `CutsceneTrigger` names no cutscene of the
static table. -/
def propsUnknown : TileProps :=
  { door := none, cutsceneTrigger := some "story_x", other := [] }

/-- State fixture for C2: playing on the pier, standing on an empty tile,
with `intro_story` already fired on this map load. -/
def c2state : GameState :=
  { baseState with
    triggered_cutscenes := ["intro_story"],
    accumulator := 100,
    last_event_tile_properties := some TileProps.empty }

/-- State fixture for C3: playing on the pier with the accumulator at 200,
standing on an empty tile. -/
def c3state : GameState :=
  { baseState with
    accumulator := 200,
    last_event_tile_properties := some TileProps.empty }

/-- State fixture for C4: playing with the accumulator at 400 (four trigger
tile entries). -/
def c4state : GameState := { baseState with accumulator := 400 }

/-- State fixture for the C3 witness: playing on the pier with the
accumulator exactly at the threshold, away from the transition edge. -/
def c3wit : GameState := { baseState with accumulator := 300 }

/-- State fixture for C6: playing on the pier with the player's rect at the
left edge. -/
def c6state : GameState :=
  { baseState with
    player := { basePlayer with rect := { x := 0, y := 200, w := 32, h := 32 } } }

/-- The `piermaster_ending` dialogue of the static table. -/
def pmDialogue : Dialogue :=
  { name := "Piermaster",
    lines := ["You... you actually did it!\n\nWith these funds, we can fully restore the pier to its former glory, maybe even better!",
              "The town owes you a great debt. Thank you, truly.",
              "Brighton's connection to the sea, its very heart, is saved thanks to you."],
    current_line := 0 }

/-- State fixture for C8: in dialogue mode on the piermaster's ending
dialogue, at its last line. -/
def c8state : GameState :=
  { baseState with
    game_state := Mode.dialogue,
    current_map_key := some "pier_repaired",
    piermaster_dialogue_key := "piermaster_ending",
    active_dialogue := some "piermaster_ending",
    active_dialogue_cursor := 2,
    dialogue_box_visible := true }

/-- State fixture for C10: playing on the palace map with the accumulator at
the threshold, the player a step from the right edge. -/
def c10state : GameState :=
  { baseState with
    current_map_key := some "palace",
    accumulator := 300,
    player := { basePlayer with rect := { x := 1240, y := 200, w := 32, h := 32 } } }

/-- The state part of `next_line` always increments the cursor, whichever
branch returns. -/
theorem Dialogue.next_line_fst (d : Dialogue) :
    d.next_line.1 = { d with current_line := d.current_line + 1 } := by
  unfold Dialogue.next_line
  split <;> rfl

/-- The returned line of `next_line`, characterized by the incremented
cursor. -/
theorem Dialogue.next_line_snd (d : Dialogue) :
    d.next_line.2 =
      if d.current_line + 1 < d.lines.length then d.lines.get? (d.current_line + 1)
      else none := by
  unfold Dialogue.next_line
  split <;> rfl

/-- Iterated advancing never touches the lines. -/
theorem Dialogue.advanceN_lines (d : Dialogue) (k : Nat) :
    (d.advanceN k).lines = d.lines := by
  induction k with
  | zero => rfl
  | succ k ih =>
    show ((d.advanceN k).next_line.1).lines = d.lines
    rw [Dialogue.next_line_fst]
    exact ih

/-- Iterated advancing adds the call count to the cursor. -/
theorem Dialogue.advanceN_cursor (d : Dialogue) (k : Nat) :
    (d.advanceN k).current_line = d.current_line + k := by
  induction k with
  | zero => rfl
  | succ k ih =>
    show ((d.advanceN k).next_line.1).current_line = d.current_line + (k + 1)
    rw [Dialogue.next_line_fst]
    simp [ih]
    omega

/-- C1 (amended): from a reset dialogue with at least one line, the first
`line_count` calls of `next_line` move the cursor from 0 up to exactly
`line_count` (so the cursor stays within `[0, line_count]` through the first
end signal), the calls before the `line_count`-th return lines and the
`line_count`-th returns `None`; every further call again returns `None` and
leaves `get_current_line` (`None`) and `is_finished` (`True`) unchanged —
but, contrary to the claim as stated, it still increments the raw cursor
past `line_count` (call `m + 1` leaves it at `m + 1`), until `reset()`
returns it to 0. -/
theorem C1_dialogue_cursor (d : Dialogue) (h0 : d.current_line = 0)
    (hn : 0 < d.lines.length) :
    (∀ k, (d.advanceN k).current_line = k) ∧
    (∀ k, k + 1 < d.lines.length → (d.advanceN k).next_line.2 = d.lines.get? (k + 1)) ∧
    ((d.advanceN (d.lines.length - 1)).next_line.2 = none) ∧
    (∀ m, d.lines.length ≤ m →
      (d.advanceN m).next_line.2 = none ∧
      (d.advanceN m).get_current_line = none ∧
      (d.advanceN m).is_finished = true ∧
      (d.advanceN m).next_line.1.current_line = m + 1) ∧
    (∀ m, ((d.advanceN m).reset).current_line = 0) := by
  have hcur : ∀ k, (d.advanceN k).current_line = k := by
    intro k; rw [Dialogue.advanceN_cursor, h0, Nat.zero_add]
  refine ⟨hcur, ?_, ?_, ?_, ?_⟩
  · intro k hk
    rw [Dialogue.next_line_snd, Dialogue.advanceN_lines, hcur]
    rw [if_pos hk]
  · rw [Dialogue.next_line_snd, Dialogue.advanceN_lines, hcur]
    rw [if_neg (by omega)]
  · intro m hm
    refine ⟨?_, ?_, ?_, ?_⟩
    · rw [Dialogue.next_line_snd, Dialogue.advanceN_lines, hcur]
      rw [if_neg (by omega)]
    · unfold Dialogue.get_current_line
      rw [Dialogue.advanceN_lines, hcur]
      rw [if_neg (by omega)]
    · unfold Dialogue.is_finished
      rw [Dialogue.advanceN_lines, hcur]
      simp
      omega
    · rw [Dialogue.next_line_fst]
      show (d.advanceN m).current_line + 1 = m + 1
      rw [hcur]
  · intro m; rfl

/-- C1 counterexample to the claim as stated: on a one-line dialogue the
first `next_line` call signals the end, yet a further call still changes the
cursor, pushing it beyond `line_count` (outside `[0, line_count]`). -/
theorem C1_counterexample :
    ((({ name := "D", lines := ["a"], current_line := 0 } : Dialogue).advanceN 1).next_line.2
      = none) ∧
    ((({ name := "D", lines := ["a"], current_line := 0 } : Dialogue).advanceN 2).current_line
      ≠ (({ name := "D", lines := ["a"], current_line := 0 } : Dialogue).advanceN 1).current_line) ∧
    ¬ ((({ name := "D", lines := ["a"], current_line := 0 } : Dialogue).advanceN 2).current_line
      ≤ ({ name := "D", lines := ["a"], current_line := 0 } : Dialogue).lines.length) := by
  refine ⟨rfl, by decide, by decide⟩

/-- Witness for C1 at a concrete two-line dialogue. -/
theorem C1_witness :
    ((witD.advanceN 2).current_line = 2) ∧
    ((witD.advanceN 1).next_line.2 = none) ∧
    ((witD.advanceN 3).get_current_line = none) := by
  have h := C1_dialogue_cursor witD rfl (by decide)
  exact ⟨h.1 2, h.2.2.1, (h.2.2.2.1 3 (by decide)).2.1⟩

/-- C5: starting a cutscene while the mode is already `cutscene` leaves the
whole state — in particular the active cutscene, the slide index, the
triggered-cutscene set and the mode — unchanged (only a warning is
printed). -/
theorem C5_cutscene_reentrancy (s : GameState) (k : String)
    (h : s.game_state = Mode.cutscene) : s.start_cutscene k = s := by
  unfold GameState.start_cutscene
  rw [if_pos h]

/-- Witness for C5 at a concrete mid-cutscene state. -/
theorem C5_witness : cutsceneFix.start_cutscene "intro_story" = cutsceneFix :=
  C5_cutscene_reentrancy cutsceneFix "intro_story" rfl

/-- C7: immediately after any successful `load_map` (any known map key),
whatever the prior state, the triggered-cutscene set is empty and the tile
snapshot is `None` (so re-entering a map re-fires the occupied tile's
properties once). -/
theorem C7_load_map_resets (s : GameState) (k : String) (h : k ∈ MAP_KEYS) :
    (s.load_map k).triggered_cutscenes = [] ∧
    (s.load_map k).last_event_tile_properties = none := by
  unfold GameState.load_map
  rw [if_pos h]
  exact ⟨rfl, rfl⟩

/-- Witness for C7 on a state with a non-empty triggered set and snapshot. -/
theorem C7_witness :
    ((cutsceneFix.load_map "streets").triggered_cutscenes = []) ∧
    ((cutsceneFix.load_map "streets").last_event_tile_properties = none) :=
  C7_load_map_resets cutsceneFix "streets" (by decide)

/-- C9: `Cutscene` construction fails exactly when the image list and the
sentence list differ in length; on success the slide count equals the common
length, the music reference is stored, and indexed access within the slide
count is defined and returns the corresponding image and sentence (the
structure is immutable: the class exposes no mutator). -/
theorem C9_cutscene_construction (imgs : List (Option String)) (sents : List String)
    (mus : Option String) :
    (Cutscene.make imgs sents mus = none ↔ imgs.length ≠ sents.length) ∧
    (∀ c, Cutscene.make imgs sents mus = some c →
      c.num_slides = imgs.length ∧ c.num_slides = sents.length ∧ c.music_path = mus ∧
      ∀ i, i < c.num_slides →
        (c.image_paths.get? i).isSome ∧ (c.sentences.get? i).isSome ∧
        c.image_paths.get? i = imgs.get? i ∧ c.sentences.get? i = sents.get? i) := by
  constructor
  · unfold Cutscene.make
    split
    · simp_all
    · simp_all
  · intro c hc
    unfold Cutscene.make at hc
    by_cases hlen : imgs.length ≠ sents.length
    · rw [if_pos hlen] at hc
      exact absurd hc (by simp)
    · rw [if_neg hlen] at hc
      have hlen2 : imgs.length = sents.length := by omega
      cases hc
      refine ⟨hlen2.symm, rfl, rfl, ?_⟩
      intro i hi
      have hi2 : i < sents.length := hi
      refine ⟨?_, ?_, rfl, rfl⟩
      · rw [List.get?_eq_get (show i < imgs.length by omega)]
        rfl
      · rw [List.get?_eq_get (show i < sents.length by omega)]
        rfl

/-- Witness for C9: a mismatched pair is rejected, a matched pair is not. -/
theorem C9_witness :
    (Cutscene.make [none] ["a", "b"] none = none) ∧
    (Cutscene.make [some "img", none] ["a", "b"] (some "m") ≠ none) := by
  constructor
  · exact (C9_cutscene_construction [none] ["a", "b"] none).1.mpr (by decide)
  · intro h
    exact absurd ((C9_cutscene_construction [some "img", none] ["a", "b"] (some "m")).1.mp h)
      (by decide)

theorem fireUpd_game_state (t : GameState) (k : String) (P : TileProps) :
    (fireUpd t k P).game_state = t.game_state := rfl

theorem fireUpd_map (t : GameState) (k : String) (P : TileProps) :
    (fireUpd t k P).current_map_key = t.current_map_key := rfl

theorem fireUpd_triggered (t : GameState) (k : String) (P : TileProps) :
    (fireUpd t k P).triggered_cutscenes = t.triggered_cutscenes := rfl

theorem fireUpd_acc (t : GameState) (k : String) (P : TileProps) :
    (fireUpd t k P).accumulator = t.accumulator + 100 := rfl

theorem fireUpd_tlog (t : GameState) (k : String) (P : TileProps) :
    (fireUpd t k P).trigger_log = t.trigger_log ++ [k] := rfl

theorem fireUpd_last (t : GameState) (k : String) (P : TileProps) :
    (fireUpd t k P).last_event_tile_properties = some P := rfl

theorem fireUpd_lastTrigger (t : GameState) (k : String) (P : TileProps) :
    (fireUpd t k P).lastTrigger = P.cutsceneTrigger := rfl

theorem snapUpd_game_state (t : GameState) (Q : TileProps) :
    (snapUpd t Q).game_state = t.game_state := rfl

theorem snapUpd_map (t : GameState) (Q : TileProps) :
    (snapUpd t Q).current_map_key = t.current_map_key := rfl

theorem snapUpd_triggered (t : GameState) (Q : TileProps) :
    (snapUpd t Q).triggered_cutscenes = t.triggered_cutscenes := rfl

theorem snapUpd_acc (t : GameState) (Q : TileProps) :
    (snapUpd t Q).accumulator = t.accumulator := rfl

theorem snapUpd_tlog (t : GameState) (Q : TileProps) :
    (snapUpd t Q).trigger_log = t.trigger_log := rfl

theorem snapUpd_lastTrigger (t : GameState) (Q : TileProps) :
    (snapUpd t Q).lastTrigger = Q.cutsceneTrigger := rfl

/-- Entering a tile whose changed `CutsceneTrigger` does not start a
cutscene (already triggered this map load, or unknown key): the accumulator
and the ghost log record one firing, the snapshot moves, nothing else
changes. -/
theorem check_tile_events_enter_fire (s : GameState) (m k : String) (P : TileProps)
    (hmode : s.game_state = Mode.playing) (hmap : s.current_map_key = some m)
    (hP : P.cutsceneTrigger = some k) (hlast : s.lastTrigger ≠ some k)
    (hns : k ∈ s.triggered_cutscenes ∨ k ∉ collision_cutscene_keys) :
    s.check_tile_events P = fireUpd s k P := by
  have hPne : some P ≠ s.last_event_tile_properties := by
    intro h
    apply hlast
    unfold GameState.lastTrigger
    rw [← h]
    exact hP
  unfold GameState.check_tile_events
  rw [if_neg (by simp [hmap, hmode]), if_neg hPne]
  simp only [hP]
  rw [if_pos (Ne.symm hlast)]
  unfold GameState.fireTrigger
  rw [if_neg (by rcases hns with h | h <;> simp [h])]
  rfl

/-- Entering a tile with no `CutsceneTrigger` while the property set
changed: only the snapshot moves. -/
theorem check_tile_events_enter_nofire (s : GameState) (m : String) (Q : TileProps)
    (hmode : s.game_state = Mode.playing) (hmap : s.current_map_key = some m)
    (hne : some Q ≠ s.last_event_tile_properties) (hQ : Q.cutsceneTrigger = none) :
    s.check_tile_events Q = snapUpd s Q := by
  unfold GameState.check_tile_events
  rw [if_neg (by simp [hmap, hmode]), if_neg hne]
  simp only [hQ]
  rfl

/-- Standing still on the same tile: the scanner does nothing (the property
dict equals the snapshot). -/
theorem check_tile_events_stay (s : GameState) (p : TileProps)
    (h : s.last_event_tile_properties = some p) :
    s.check_tile_events p = s := by
  unfold GameState.check_tile_events
  split
  · rfl
  · rw [if_pos h.symm]

theorem scanFrames_cons (s : GameState) (p : TileProps) (l : List TileProps) :
    scanFrames s (p :: l) = scanFrames (s.check_tile_events p) l := rfl

theorem scanFrames_append (s : GameState) (l1 l2 : List TileProps) :
    scanFrames s (l1 ++ l2) = scanFrames (scanFrames s l1) l2 :=
  List.foldl_append _ _ _ _

theorem scanFrames_stay (s : GameState) (p : TileProps) (n : Nat)
    (h : s.last_event_tile_properties = some p) :
    scanFrames s (List.replicate n p) = s := by
  induction n with
  | zero => rfl
  | succ n ih =>
    rw [List.replicate_succ, scanFrames_cons, check_tile_events_stay s p h]
    exact ih

/-- A segment of frames on a freshly entered firing trigger tile. -/
theorem scan_fire_seg (t : GameState) (m k : String) (P : TileProps) (a : Nat)
    (hmode : t.game_state = Mode.playing) (hmap : t.current_map_key = some m)
    (hP : P.cutsceneTrigger = some k) (hlast : t.lastTrigger ≠ some k)
    (hns : k ∈ t.triggered_cutscenes ∨ k ∉ collision_cutscene_keys) :
    scanFrames t (List.replicate (a + 1) P) = fireUpd t k P := by
  rw [List.replicate_succ, scanFrames_cons,
      check_tile_events_enter_fire t m k P hmode hmap hP hlast hns]
  exact scanFrames_stay _ P a (fireUpd_last t k P)

/-- A segment of frames on a freshly entered non-firing tile. -/
theorem scan_nofire_seg (t : GameState) (m : String) (Q : TileProps) (b : Nat)
    (hmode : t.game_state = Mode.playing) (hmap : t.current_map_key = some m)
    (hne : some Q ≠ t.last_event_tile_properties) (hQ : Q.cutsceneTrigger = none) :
    scanFrames t (List.replicate (b + 1) Q) = snapUpd t Q := by
  rw [List.replicate_succ, scanFrames_cons,
      check_tile_events_enter_nofire t m Q hmode hmap hne hQ]
  exact scanFrames_stay _ Q b rfl

/-- C2 (amended): while playing on one map load, entering a tile whose
`CutsceneTrigger` value `k` differs from the snapshot's, staying on it any
number of frames, leaving to a tile with no `CutsceneTrigger` (any number of
frames there) and re-entering the trigger tile fires the trigger event
exactly twice — once per entry, never once per frame — provided firing does
not start a cutscene mid-scenario (the key already fired this map load, or
names no cutscene), which would leave playing mode and stop the scanner.
The code compares `CutsceneTrigger` values, not whole property sets: the
amendment replaces the claim's "a tile with a different property set" by "a
tile with a different `CutsceneTrigger` value (none)". -/
theorem C2_edge_trigger (s : GameState) (m k : String) (P Q : TileProps) (a b c : Nat)
    (hmode : s.game_state = Mode.playing) (hmap : s.current_map_key = some m)
    (hlast : s.lastTrigger ≠ some k)
    (hP : P.cutsceneTrigger = some k) (hQ : Q.cutsceneTrigger = none)
    (hns : k ∈ s.triggered_cutscenes ∨ k ∉ collision_cutscene_keys) :
    (scanFrames s (List.replicate (a + 1) P ++ List.replicate (b + 1) Q ++
        List.replicate (c + 1) P)).trigger_log = s.trigger_log ++ [k, k] ∧
    (scanFrames s (List.replicate (a + 1) P ++ List.replicate (b + 1) Q ++
        List.replicate (c + 1) P)).accumulator = s.accumulator + 200 ∧
    (scanFrames s (List.replicate (a + 1) P ++ List.replicate (b + 1) Q ++
        List.replicate (c + 1) P)).game_state = Mode.playing := by
  have hQne : some Q ≠ (fireUpd s k P).last_event_tile_properties := by
    rw [fireUpd_last]
    intro h
    rw [Option.some_inj] at h
    rw [h, hP] at hQ
    exact Option.noConfusion hQ
  have hfinal :
      scanFrames s (List.replicate (a + 1) P ++ List.replicate (b + 1) Q ++
        List.replicate (c + 1) P) = fireUpd (snapUpd (fireUpd s k P) Q) k P := by
    rw [scanFrames_append, scanFrames_append,
        scan_fire_seg s m k P a hmode hmap hP hlast hns,
        scan_nofire_seg (fireUpd s k P) m Q b hmode hmap hQne hQ,
        scan_fire_seg (snapUpd (fireUpd s k P) Q) m k P c hmode hmap hP
          (by rw [snapUpd_lastTrigger, hQ]; exact fun h => Option.noConfusion h)
          hns]
  rw [hfinal]
  refine ⟨?_, ?_, ?_⟩
  · rw [fireUpd_tlog, snapUpd_tlog, fireUpd_tlog, List.append_assoc]
    rfl
  · rw [fireUpd_acc, snapUpd_acc, fireUpd_acc]
  · exact hmode

/-- C2 counterexample to the claim as stated: leaving the trigger tile
`propsP` for `propsQsame` — a tile with a different property set but the
same `CutsceneTrigger` value — and re-entering fires the trigger event
once, not twice (the code edge-triggers on the `CutsceneTrigger` value, not
on the property set). -/
theorem C2_counterexample :
    (scanFrames c2state [propsP, propsP, propsP, propsQsame, propsP, propsP]).trigger_log
      = ["intro_story"] ∧
    ¬ ((scanFrames c2state
        [propsP, propsP, propsP, propsQsame, propsP, propsP]).trigger_log.length = 2) ∧
    (scanFrames c2state
        [propsP, propsP, propsP, propsQsame, propsP, propsP]).game_state = Mode.playing := by
  refine ⟨by decide, by decide, by decide⟩

/-- Witness for C2 on concrete states and tiles (one extra frame on each
tile). -/
theorem C2_witness :
    (scanFrames c2state [propsP, propsP, TileProps.empty, TileProps.empty,
        propsP, propsP]).trigger_log = ["intro_story", "intro_story"] ∧
    (scanFrames c2state [propsP, propsP, TileProps.empty, TileProps.empty,
        propsP, propsP]).accumulator = 300 := by
  have h := C2_edge_trigger c2state "pier" "intro_story" propsP TileProps.empty 1 1 1
    rfl rfl (by decide) rfl rfl (Or.inl (by decide))
  exact ⟨h.1, h.2.1⟩

theorem Rect.center_setCenter (r : Rect) (c : Int × Int) : (r.setCenter c).center = c := by
  unfold Rect.setCenter Rect.center
  cases c with
  | mk a b =>
    simp only [Prod.mk.injEq]
    constructor <;> omega

theorem Rect.topleft_setTopleft (r : Rect) (c : Int × Int) : (r.setTopleft c).topleft = c := by
  unfold Rect.setTopleft Rect.topleft
  cases c with
  | mk a b => rfl

/-- A successful `load_map`: the reset/record effects on the fields the
claims inspect; the player, the accumulator, the mode and the ghost trigger
log are untouched. -/
theorem load_map_fields (s : GameState) (k : String) (h : k ∈ MAP_KEYS) :
    (s.load_map k).current_map_key = some k ∧
    (s.load_map k).load_log = s.load_log ++ [k] ∧
    (s.load_map k).accumulator = s.accumulator ∧
    (s.load_map k).player = s.player ∧
    (s.load_map k).game_state = s.game_state := by
  unfold GameState.load_map
  rw [if_pos h]
  exact ⟨rfl, rfl, rfl, rfl, rfl⟩

theorem load_map_acc (s : GameState) (k : String) :
    (s.load_map k).accumulator = s.accumulator := by
  unfold GameState.load_map
  split <;> rfl

theorem transitions_of_none (s : GameState) (m : String)
    (hm : s.current_map_key = some m) (h : transitionFor m s.player.rect = none) :
    s.handle_map_transitions = s := by
  unfold GameState.handle_map_transitions
  simp only [hm, h]

theorem transitions_of_some (s : GameState) (m dest : String) (side : Side) (c : Int)
    (hm : s.current_map_key = some m)
    (h : transitionFor m s.player.rect = some (dest, side, c)) :
    s.handle_map_transitions =
      { s.load_map dest with player := (s.load_map dest).player.reposition side c } := by
  unfold GameState.handle_map_transitions
  simp only [hm, h]

theorem transitionFor_pier (r : Rect) :
    transitionFor "pier" r =
      if r.left ≤ 30 then some ("palace", Side.right, 1250) else none := by
  unfold transitionFor
  have h1 : ("pier" : String) ≠ "palace" := by decide
  have h2 : ("pier" : String) ≠ "streets" := by decide
  have h3 : ("pier" : String) ≠ "pier_repaired" := by decide
  norm_num [SCREEN_WIDTH, MAP_TRANSITION_BUFFER, h1, h2, h3]

theorem transitionFor_palace (r : Rect) :
    transitionFor "palace" r =
      if 1250 ≤ r.right then some ("pier", Side.left, 30)
      else if r.left ≤ 30 then some ("streets", Side.right, 1250)
      else none := by
  unfold transitionFor
  have h1 : ("palace" : String) ≠ "pier" := by decide
  have h2 : ("palace" : String) ≠ "streets" := by decide
  have h3 : ("palace" : String) ≠ "pier_repaired" := by decide
  norm_num [SCREEN_WIDTH, MAP_TRANSITION_BUFFER, h1, h2, h3]

/-- C6: on the pier with the player's rect at `left == 0`, one run of the
transition check performs exactly one map load — of `palace` — and leaves
the player's right edge at `viewport_width - buffer` with the hitbox
re-centered on the rect. -/
theorem C6_pier_left_transition (s : GameState)
    (hm : s.current_map_key = some "pier") (hl : s.player.rect.left = 0) :
    (s.handle_map_transitions).load_log = s.load_log ++ ["palace"] ∧
    (s.handle_map_transitions).current_map_key = some "palace" ∧
    (s.handle_map_transitions).player.rect.right = SCREEN_WIDTH - MAP_TRANSITION_BUFFER ∧
    (s.handle_map_transitions).player.hitbox.center =
      (s.handle_map_transitions).player.rect.center := by
  have ht : transitionFor "pier" s.player.rect = some ("palace", Side.right, 1250) := by
    rw [transitionFor_pier, if_pos (by rw [hl]; norm_num)]
  rw [transitions_of_some s "pier" "palace" Side.right 1250 hm ht]
  have hlm := load_map_fields s "palace" (by decide)
  refine ⟨hlm.2.1, hlm.1, ?_, ?_⟩
  · show ((s.load_map "palace").player.reposition Side.right 1250).rect.right
      = SCREEN_WIDTH - MAP_TRANSITION_BUFFER
    unfold Player.reposition Rect.setSide Rect.setRight Rect.right
    norm_num [SCREEN_WIDTH, MAP_TRANSITION_BUFFER]
  · show ((s.load_map "palace").player.reposition Side.right 1250).hitbox.center
      = ((s.load_map "palace").player.reposition Side.right 1250).rect.center
    unfold Player.reposition
    exact Rect.center_setCenter _ _

/-- Witness for C6 at a concrete left-edge state. -/
theorem C6_witness :
    (c6state.handle_map_transitions).load_log = ["palace"] ∧
    (c6state.handle_map_transitions).current_map_key = some "palace" ∧
    (c6state.handle_map_transitions).player.rect.right = SCREEN_WIDTH - MAP_TRANSITION_BUFFER ∧
    (c6state.handle_map_transitions).player.hitbox.center =
      (c6state.handle_map_transitions).player.rect.center :=
  C6_pier_left_transition c6state rfl rfl

theorem start_cutscene_fields (s : GameState) (k : String) :
    (s.start_cutscene k).current_map_key = s.current_map_key ∧
    (s.start_cutscene k).accumulator = s.accumulator ∧
    (s.start_cutscene k).player = s.player ∧
    (s.start_cutscene k).load_log = s.load_log := by
  unfold GameState.start_cutscene
  split
  · exact ⟨rfl, rfl, rfl, rfl⟩
  · split
    · exact ⟨rfl, rfl, rfl, rfl⟩
    · exact ⟨rfl, rfl, rfl, rfl⟩

theorem fireTrigger_fields (s : GameState) (k : String) :
    (s.fireTrigger k).current_map_key = s.current_map_key ∧
    (s.fireTrigger k).accumulator = s.accumulator + 100 ∧
    (s.fireTrigger k).player = s.player ∧
    (s.fireTrigger k).load_log = s.load_log := by
  unfold GameState.fireTrigger
  split
  · exact start_cutscene_fields _ k
  · exact ⟨rfl, rfl, rfl, rfl⟩

/-- The tile-event scanner never loads a map, never moves the player, keeps
the current map, and raises the accumulator by at most one 100 step. -/
theorem check_tile_events_fields (s : GameState) (cur : TileProps) :
    (s.check_tile_events cur).current_map_key = s.current_map_key ∧
    (s.check_tile_events cur).player = s.player ∧
    (s.check_tile_events cur).load_log = s.load_log ∧
    s.accumulator ≤ (s.check_tile_events cur).accumulator ∧
    (s.check_tile_events cur).accumulator ≤ s.accumulator + 100 := by
  unfold GameState.check_tile_events
  split
  · exact ⟨rfl, rfl, rfl, Nat.le_refl _, Nat.le_add_right _ _⟩
  split
  · exact ⟨rfl, rfl, rfl, Nat.le_refl _, Nat.le_add_right _ _⟩
  cases h : cur.cutsceneTrigger with
  | none => exact ⟨rfl, rfl, rfl, Nat.le_refl _, Nat.le_add_right _ _⟩
  | some k =>
    dsimp only
    split
    · have hf := fireTrigger_fields s k
      refine ⟨hf.1, hf.2.2.1, hf.2.2.2, ?_, ?_⟩
      · show s.accumulator ≤ (s.fireTrigger k).accumulator
        rw [hf.2.1]
        exact Nat.le_add_right _ _
      · show (s.fireTrigger k).accumulator ≤ s.accumulator + 100
        rw [hf.2.1]
    · exact ⟨rfl, rfl, rfl, Nat.le_refl _, Nat.le_add_right _ _⟩

theorem transitions_acc (s : GameState) :
    (s.handle_map_transitions).accumulator = s.accumulator := by
  unfold GameState.handle_map_transitions
  split
  · rfl
  · split
    · rfl
    · exact load_map_acc _ _

theorem funding_gate_fires (s : GameState)
    (hm : s.current_map_key = some "pier") (ha : 300 ≤ s.accumulator) :
    s.funding_gate = (s.load_map "pier_repaired").place_player_topleft
      s.player.rect.topleft := by
  unfold GameState.funding_gate
  rw [if_pos ⟨hm, ha⟩]

theorem funding_gate_skips (s : GameState)
    (h : ¬ (s.current_map_key = some "pier" ∧ 300 ≤ s.accumulator)) :
    s.funding_gate = s := by
  unfold GameState.funding_gate
  rw [if_neg h]

theorem funding_gate_acc (s : GameState) :
    (s.funding_gate).accumulator = s.accumulator := by
  unfold GameState.funding_gate
  split
  · exact load_map_acc _ _
  · rfl

theorem place_player_fields (s : GameState) (pos : Int × Int) :
    (s.place_player_topleft pos).load_log = s.load_log ∧
    (s.place_player_topleft pos).current_map_key = s.current_map_key ∧
    (s.place_player_topleft pos).player.rect.topleft = pos ∧
    (s.place_player_topleft pos).player.hitbox.center =
      (s.place_player_topleft pos).player.rect.center := by
  refine ⟨rfl, rfl, Rect.topleft_setTopleft _ _, ?_⟩
  show (s.player.hitbox.setCenter (s.player.rect.setTopleft pos).center).center =
    (s.player.rect.setTopleft pos).center
  exact Rect.center_setCenter _ _

/-- C3 (amended).  The repair gate compares the accumulator after this
frame's tile-event scan, and runs after the transition check, so the claim's
two halves hold in this form: (i) when even a tile-entry increment cannot
reach the threshold (accumulator below 200 before the frame), the update
performs no repair swap — its only possible load is the left-edge transition
to `palace`; (ii) when the accumulator is already at or above 300 and the
player is not inside the left transition edge after moving, the update
performs exactly one load, of `pier_repaired`, and the player's pre-swap
top-left (the moved position) equals the post-swap top-left, with the hitbox
re-centered on the rect.  The claim as stated fails between 200 and 299
when a new trigger tile is entered the same frame (see the counterexample)
and at the transition edge, where the `palace` load pre-empts the gate. -/
theorem C3_funding_gate (s : GameState) (mx my : Int) (cur : TileProps) :
    (s.game_state = Mode.playing → s.current_map_key = some "pier" →
      s.accumulator + 100 < 300 →
      (s.update mx my cur).load_log = s.load_log ∨
      (s.update mx my cur).load_log = s.load_log ++ ["palace"]) ∧
    (s.game_state = Mode.playing → s.current_map_key = some "pier" →
      300 ≤ s.accumulator → ¬ (s.player.moveBy mx my).rect.left ≤ 30 →
      (s.update mx my cur).load_log = s.load_log ++ ["pier_repaired"] ∧
      (s.update mx my cur).current_map_key = some "pier_repaired" ∧
      (s.update mx my cur).player.rect.topleft = (s.player.moveBy mx my).rect.topleft ∧
      (s.update mx my cur).player.hitbox.center =
        (s.update mx my cur).player.rect.center) := by
  constructor
  · intro hgs hm hacc
    unfold GameState.update
    rw [if_pos ⟨hgs, by rw [hm]; rfl⟩]
    have hsc := check_tile_events_fields { s with player := s.player.moveBy mx my } cur
    set B := ({ s with player := s.player.moveBy mx my } : GameState).check_tile_events cur
      with hB
    have hBmap : B.current_map_key = some "pier" := by rw [hsc.1]; exact hm
    have hBplayer : B.player = s.player.moveBy mx my := by rw [hsc.2.1]
    have hBlog : B.load_log = s.load_log := by rw [hsc.2.2.1]
    have hBacc2 : B.accumulator ≤ s.accumulator + 100 := hsc.2.2.2.2
    by_cases hl : (s.player.moveBy mx my).rect.left ≤ 30
    · have ht : transitionFor "pier" B.player.rect = some ("palace", Side.right, 1250) := by
        rw [hBplayer, transitionFor_pier, if_pos hl]
      rw [transitions_of_some B "pier" "palace" Side.right 1250 hBmap ht]
      rw [funding_gate_skips]
      · right
        show (B.load_map "palace").load_log = s.load_log ++ ["palace"]
        rw [(load_map_fields B "palace" (by decide)).2.1, hBlog]
      · intro hcon
        have hcm : (B.load_map "palace").current_map_key = some "palace" :=
          (load_map_fields B "palace" (by decide)).1
        have : some "palace" = some "pier" := hcm.symm.trans hcon.1
        simp at this
    · have ht : transitionFor "pier" B.player.rect = none := by
        rw [hBplayer, transitionFor_pier, if_neg hl]
      rw [transitions_of_none B "pier" hBmap ht]
      rw [funding_gate_skips]
      · left
        exact hBlog
      · intro hcon
        omega
  · intro hgs hm hacc hl
    unfold GameState.update
    rw [if_pos ⟨hgs, by rw [hm]; rfl⟩]
    have hsc := check_tile_events_fields { s with player := s.player.moveBy mx my } cur
    set B := ({ s with player := s.player.moveBy mx my } : GameState).check_tile_events cur
      with hB
    have hBmap : B.current_map_key = some "pier" := by rw [hsc.1]; exact hm
    have hBplayer : B.player = s.player.moveBy mx my := by rw [hsc.2.1]
    have hBlog : B.load_log = s.load_log := by rw [hsc.2.2.1]
    have hBacc1 : s.accumulator ≤ B.accumulator := hsc.2.2.2.1
    have ht : transitionFor "pier" B.player.rect = none := by
      rw [hBplayer, transitionFor_pier, if_neg hl]
    rw [transitions_of_none B "pier" hBmap ht]
    rw [funding_gate_fires B hBmap (by omega)]
    have hpl := place_player_fields (B.load_map "pier_repaired") B.player.rect.topleft
    have hlm := load_map_fields B "pier_repaired" (by decide)
    refine ⟨?_, ?_, ?_, hpl.2.2.2⟩
    · rw [hpl.1, hlm.2.1, hBlog]
    · rw [hpl.2.1, hlm.1]
    · rw [hpl.2.2.1, hBplayer]

/-- C3 counterexample to the claim as stated: with the accumulator at 200
(strictly below the threshold) on the pier, entering a tile with a new
`CutsceneTrigger` raises it to 300 within the same frame and the very same
per-frame update performs the repair swap. -/
theorem C3_counterexample :
    c3state.accumulator < 300 ∧
    (c3state.update 0 0 propsUnknown).load_log = ["pier_repaired"] ∧
    (c3state.update 0 0 propsUnknown).current_map_key = some "pier_repaired" := by
  refine ⟨by decide, by decide, by decide⟩

/-- Witness for C3: below the threshold nothing is loaded; at the threshold
one `pier_repaired` load with the position preserved. -/
theorem C3_witness :
    ((baseState.update 0 0 TileProps.empty).load_log = baseState.load_log ∨
      (baseState.update 0 0 TileProps.empty).load_log = baseState.load_log ++ ["palace"]) ∧
    ((c3wit.update 0 0 TileProps.empty).load_log = c3wit.load_log ++ ["pier_repaired"] ∧
      (c3wit.update 0 0 TileProps.empty).current_map_key = some "pier_repaired" ∧
      (c3wit.update 0 0 TileProps.empty).player.rect.topleft =
        (c3wit.player.moveBy 0 0).rect.topleft ∧
      (c3wit.update 0 0 TileProps.empty).player.hitbox.center =
        (c3wit.update 0 0 TileProps.empty).player.rect.center) :=
  ⟨(C3_funding_gate baseState 0 0 TileProps.empty).1 rfl rfl (by decide),
   (C3_funding_gate c3wit 0 0 TileProps.empty).2 rfl rfl (by decide) (by decide)⟩

/-- C10: while playing on `palace` with the accumulator at or above 300,
a frame in which the moved player reaches the right edge performs two loads
in one update: the transition table sends the player to the damaged `pier`
(never to `pier_repaired`), and the funding gate, which runs afterwards in
the same update, immediately loads `pier_repaired`; the frame ends on
`pier_repaired`. -/
theorem C10_palace_double_load (s : GameState) (mx my : Int) (cur : TileProps)
    (hgs : s.game_state = Mode.playing) (hm : s.current_map_key = some "palace")
    (hacc : 300 ≤ s.accumulator)
    (hr : 1250 ≤ (s.player.moveBy mx my).rect.right) :
    (s.update mx my cur).load_log = s.load_log ++ ["pier", "pier_repaired"] ∧
    (s.update mx my cur).current_map_key = some "pier_repaired" := by
  unfold GameState.update
  rw [if_pos ⟨hgs, by rw [hm]; rfl⟩]
  have hsc := check_tile_events_fields { s with player := s.player.moveBy mx my } cur
  set B := ({ s with player := s.player.moveBy mx my } : GameState).check_tile_events cur
    with hB
  have hBmap : B.current_map_key = some "palace" := by rw [hsc.1]; exact hm
  have hBplayer : B.player = s.player.moveBy mx my := by rw [hsc.2.1]
  have hBlog : B.load_log = s.load_log := by rw [hsc.2.2.1]
  have hBacc1 : s.accumulator ≤ B.accumulator := hsc.2.2.2.1
  have ht : transitionFor "palace" B.player.rect = some ("pier", Side.left, 30) := by
    rw [hBplayer, transitionFor_palace, if_pos hr]
  rw [transitions_of_some B "palace" "pier" Side.left 30 hBmap ht]
  set C : GameState :=
    { B.load_map "pier" with player := (B.load_map "pier").player.reposition Side.left 30 }
    with hC
  have hlmB := load_map_fields B "pier" (by decide)
  have hCmap : C.current_map_key = some "pier" := hlmB.1
  have hCacc : 300 ≤ C.accumulator := by
    have : C.accumulator = B.accumulator := load_map_acc B "pier"
    omega
  have hClog : C.load_log = s.load_log ++ ["pier"] := by
    show (B.load_map "pier").load_log = s.load_log ++ ["pier"]
    rw [hlmB.2.1, hBlog]
  rw [funding_gate_fires C hCmap hCacc]
  have hpl := place_player_fields (C.load_map "pier_repaired") C.player.rect.topleft
  have hlmC := load_map_fields C "pier_repaired" (by decide)
  constructor
  · rw [hpl.1, hlmC.2.1, hClog, List.append_assoc]
    rfl
  · rw [hpl.2.1, hlmC.1]

/-- Witness for C10 at a concrete right-edge, threshold-reached state. -/
theorem C10_witness :
    (c10state.update 5 0 TileProps.empty).load_log = ["pier", "pier_repaired"] ∧
    (c10state.update 5 0 TileProps.empty).current_map_key = some "pier_repaired" := by
  have h := C10_palace_double_load c10state 5 0 TileProps.empty rfl rfl (by decide) (by decide)
  simpa using h

theorem start_dialogue_acc (s : GameState) (r : NPCRole) :
    (s.start_dialogue r).accumulator = s.accumulator := by
  unfold GameState.start_dialogue
  repeat' split
  all_goals rfl

theorem dialogue_advance_acc (s : GameState) :
    (s.dialogue_advance).accumulator = s.accumulator := by
  unfold GameState.dialogue_advance
  repeat' split
  all_goals rfl

theorem end_cutscene_acc (s : GameState) :
    (s.end_cutscene).accumulator = s.accumulator := rfl

theorem advance_cutscene_slide_acc (s : GameState) :
    (s.advance_cutscene_slide).accumulator = s.accumulator := by
  unfold GameState.advance_cutscene_slide
  repeat' split
  all_goals rfl

/-- No event branch other than the debug `Q` key in playing mode touches
the accumulator. -/
theorem dispatch_event_acc (s : GameState) (ev : GEvent) (nb : Option NPCRole)
    (h : ev ≠ GEvent.keydown GKey.q) :
    (s.dispatch_event ev nb).accumulator = s.accumulator := by
  unfold GameState.dispatch_event
  cases ev with
  | keydown k =>
    cases k <;> first
      | exact absurd rfl h
      | ((repeat' split) <;>
          first
            | rfl
            | exact start_dialogue_acc _ _
            | exact dialogue_advance_acc _
            | exact end_cutscene_acc _
            | exact advance_cutscene_slide_acc _
            | simp_all)
  | quit =>
    (repeat' split) <;> first
      | rfl
      | simp_all
  | clickPlay =>
    (repeat' split) <;> first
      | rfl
      | exact load_map_acc _ _
      | simp_all
  | clickYes =>
    (repeat' split) <;> first
      | rfl
      | simp_all
  | clickNo =>
    (repeat' split) <;> first
      | rfl
      | simp_all

theorem handle_event_acc (s : GameState) (ev : GEvent) (nb : Option NPCRole)
    (h : ev ≠ GEvent.keydown GKey.q) :
    (s.handle_event ev nb).accumulator = s.accumulator := by
  unfold GameState.handle_event
  split
  · exact dispatch_event_acc _ _ _ h
  · exact dispatch_event_acc _ _ _ h

theorem update_acc_mono (s : GameState) (mx my : Int) (cur : TileProps) :
    s.accumulator ≤ (s.update mx my cur).accumulator := by
  unfold GameState.update
  split
  · have h1 : s.accumulator ≤
        (({ s with player := s.player.moveBy mx my } : GameState).check_tile_events
          cur).accumulator :=
      (check_tile_events_fields { s with player := s.player.moveBy mx my } cur).2.2.2.1
    have h2 := transitions_acc
      (({ s with player := s.player.moveBy mx my } : GameState).check_tile_events cur)
    have h3 := funding_gate_acc
      ((({ s with player := s.player.moveBy mx my } : GameState).check_tile_events
        cur).handle_map_transitions)
    rw [h3, h2]
    exact h1
  · exact Nat.le_refl _

/-- C4 (amended): the accumulator never decreases across any per-frame
update, and never decreases on any input event except the debug `Q` key,
which (in playing mode) sets it to exactly 300 — a decrease precisely when
the accumulator already exceeds 300 (reachable, since every new trigger-tile
entry adds 100 with no upper bound).  The claim as stated, with no `Q`-key
exception, fails on the counterexample below. -/
theorem C4_accumulator (s : GameState) (mx my : Int) (cur : TileProps)
    (ev : GEvent) (nb : Option NPCRole) :
    (s.accumulator ≤ (s.update mx my cur).accumulator) ∧
    (ev ≠ GEvent.keydown GKey.q → s.accumulator ≤ (s.handle_event ev nb).accumulator) ∧
    (s.game_state = Mode.playing →
      (s.handle_event (GEvent.keydown GKey.q) nb).accumulator = 300) := by
  refine ⟨update_acc_mono s mx my cur, ?_, ?_⟩
  · intro h
    exact (handle_event_acc s ev nb h).ge
  · intro hgs
    unfold GameState.handle_event
    rw [if_neg (by decide)]
    unfold GameState.dispatch_event
    simp only [hgs]

/-- C4 counterexample to the claim as stated: from an accumulator of 400
(four trigger entries), the debug `Q` key input sets it to 300 — the
accumulator decreases on an input event. -/
theorem C4_counterexample :
    (c4state.handle_event (GEvent.keydown GKey.q) none).accumulator
      < c4state.accumulator := by
  decide

/-- Witness for C4 at concrete inputs: a frame update and a non-`Q` key
do not decrease the accumulator; `Q` sets it to 300. -/
theorem C4_witness :
    (baseState.accumulator ≤ (baseState.update 5 0 propsUnknown).accumulator) ∧
    (baseState.accumulator ≤
      (baseState.handle_event (GEvent.keydown GKey.e) none).accumulator) ∧
    ((baseState.handle_event (GEvent.keydown GKey.q) none).accumulator = 300) := by
  have h := C4_accumulator baseState 5 0 propsUnknown (GEvent.keydown GKey.e) none
  exact ⟨h.1, h.2.1 (by decide), h.2.2 rfl⟩

/-- C8: loading the repaired pier overwrites the piermaster's dialogue key
to the ending key (the piermaster is placed on that map); and when the
advance key exhausts the lines of the active dialogue in dialogue mode, the
game transitions to `ending` exactly when that dialogue is the designated
`piermaster_ending` one, and back to `playing` otherwise. -/
theorem C8_ending_dialogue (s : GameState) (nb : Option NPCRole) (k : String)
    (d : Dialogue) :
    ((s.load_map "pier_repaired").piermaster_dialogue_key = "piermaster_ending") ∧
    (s.game_state = Mode.dialogue → s.active_dialogue = some k →
      dialoguesGet k = some d → d.lines.length ≤ s.active_dialogue_cursor + 1 →
      (s.handle_event (GEvent.keydown GKey.ret) nb).game_state =
        (if k = "piermaster_ending" then Mode.ending else Mode.playing)) := by
  constructor
  · unfold GameState.load_map
    rw [if_pos (show "pier_repaired" ∈ MAP_KEYS by decide)]
    rfl
  · intro hgs had hdg hlen
    unfold GameState.handle_event
    rw [if_neg (by decide)]
    unfold GameState.dispatch_event
    simp only [hgs]
    unfold GameState.dialogue_advance
    simp only [had, hdg]
    have hnl : ({ d with current_line := s.active_dialogue_cursor } : Dialogue).next_line =
        ({ d with current_line := s.active_dialogue_cursor + 1 }, none) := by
      unfold Dialogue.next_line
      rw [if_neg (show ¬ (s.active_dialogue_cursor + 1 < d.lines.length) by omega)]
    simp only [hnl]

/-- Witness for C8: the overwrite on a concrete load, and the ending
transition on the concrete final line of the ending dialogue. -/
theorem C8_witness :
    ((baseState.load_map "pier_repaired").piermaster_dialogue_key = "piermaster_ending") ∧
    ((c8state.handle_event (GEvent.keydown GKey.ret) none).game_state = Mode.ending) := by
  refine ⟨(C8_ending_dialogue baseState none "x" witD).1, ?_⟩
  have h2 := (C8_ending_dialogue c8state none "piermaster_ending" pmDialogue).2 rfl rfl
    (by decide) (by decide)
  simpa using h2
